import Mathlib

/-!
Verification of the remove-bg service (`src/server.py`).

The file shallowly embeds the server: module-level configuration constants,
the background preload routine `_preload_rembg`, the preprocessing helper
`downscale_if_needed` (whose successful resize path is PIL's
`Image.thumbnail` size computation, embedded over exact rationals), and the
request handler `remove_bg` together with Flask's `MAX_CONTENT_LENGTH`
enforcement and the 413 error handler.

External collaborators (PIL decode/encode, image copy, the rembg inference
function) are opaque in the source, so they are passed in as explicit
function parameters of type `Except String _`, mirroring Python calls that
either return or raise.  The handler additionally returns the list of
pipeline steps it actually performed, so that "decode is never invoked"
style properties are directly statable.
-/

namespace RemoveBgService

/-- An in-memory pixel buffer: dimensions plus abstract pixel data
(`PIL.Image.Image` at the boundary we model). -/
structure Image where
  width : Nat
  height : Nat
  data : List Nat
deriving Repr, DecidableEq

/-- Type of the rembg `remove` function: takes a decoded image, returns a
decoded image or raises (`rembg.remove` with the module session). -/
abbrev RemoveFn := Image → Except String Image

/-- Whether an `Except` value is a success. -/
def exceptIsOk {ε α : Type} : Except ε α → Bool
  | Except.ok _ => true
  | Except.error _ => false

/-- The module-level mutable globals of `server.py`:
`remove_fn = None`, `session = None`, `ready_event = threading.Event()`. -/
structure ServerState where
  remove_fn : Option RemoveFn
  session : Option Nat
  ready_event : Bool

/-- State at process start: both globals `None`, event not set. -/
def initialState : ServerState :=
  { remove_fn := none, session := none, ready_event := false }

/-- `app.config["MAX_CONTENT_LENGTH"] = 10 * 1024 * 1024` (server.py line 25). -/
def MAX_CONTENT_LENGTH : Nat := 10 * 1024 * 1024

/-- `ImageFile.LOAD_TRUNCATED_IMAGES = True` (server.py line 28), the
process-wide PIL flag that decoding reads. -/
def LOAD_TRUNCATED_IMAGES : Bool := true

/-- The warm-up canvas `Image.new("RGBA", (8, 8), (0, 0, 0, 0))`. -/
def blank_img : Image :=
  { width := 8, height := 8, data := List.replicate 64 0 }

/-- `_preload_rembg` (server.py lines 44-64).  Its effect on the globals as a
function of the outcomes of the two fallible construction steps: the
`rembg` import and `new_session("u2netp")`.  Control flow of the source:
the outer `try` sets `remove_fn` after a successful import, then builds the
session; the inner `try`/`finally` around the warm-up call sets
`ready_event` whether the warm-up raises or not; an exception in the import
or in session construction is swallowed by the outer `except`, which leaves
`ready_event` unset ("Keep not ready so requests can return 503 quickly").
The warm-up call itself is `remove_fn(blank_img, session=session)`; it
changes no global, so it does not appear in the returned state. -/
def preload_rembg (importResult : Except String RemoveFn)
    (sessionResult : Except String Nat) : ServerState :=
  match importResult with
  | Except.error _ => initialState
  | Except.ok rf =>
    match sessionResult with
    | Except.error _ =>
      { remove_fn := some rf, session := none, ready_event := false }
    | Except.ok s =>
      { remove_fn := some rf, session := some s, ready_event := true }

/-- The readiness check of the handler (server.py line 91, positively):
`ready_event.is_set() and remove_fn is not None and session is not None`. -/
def isReady (st : ServerState) : Bool :=
  st.ready_event && st.remove_fn.isSome && st.session.isSome

/-- Pillow's `round_aspect(number, key)` inside `Image.thumbnail`:
`max(min(math.floor(number), math.ceil(number), key=key), 1)` — pick
whichever of floor/ceil has the smaller key (floor on ties, as Python's
`min` keeps the first argument), never below 1. -/
def round_aspect (q : ℚ) (key : ℕ → ℚ) : ℕ :=
  max (if key (Int.toNat ⌊q⌋) ≤ key (Int.toNat ⌈q⌉)
       then Int.toNat ⌊q⌋ else Int.toNat ⌈q⌉) 1

/-- The size computation of Pillow's `Image.thumbnail((x, y))` on a `w × h`
image, over exact rationals: if the image already fits the box it is left
alone; otherwise the aspect ratio `w / h` is preserved, shrinking whichever
side the box constrains more. -/
def thumbnail_size (w h x y : ℕ) : ℕ × ℕ :=
  if x ≥ w ∧ y ≥ h then (w, h)
  else if (x : ℚ) / (y : ℚ) ≥ (w : ℚ) / (h : ℚ) then
    (round_aspect ((y : ℚ) * ((w : ℚ) / (h : ℚ)))
      (fun n => |(w : ℚ) / (h : ℚ) - (n : ℚ) / (y : ℚ)|), y)
  else
    (x, round_aspect ((x : ℚ) / ((w : ℚ) / (h : ℚ)))
      (fun n => if n = 0 then 0 else |(w : ℚ) / (h : ℚ) - (x : ℚ) / (n : ℚ)|))

/-- Pillow's `img.thumbnail((maxDim, maxDim), Image.LANCZOS)` as a pure
function: compute the target size; resize (producing resampled pixel data)
only when the size actually changes.  `resample` abstracts the LANCZOS
pixel computation. -/
def pil_thumbnail (resample : Image → Nat → Nat → List Nat)
    (img : Image) (maxDim : Nat) : Image :=
  if img.width = (thumbnail_size img.width img.height maxDim maxDim).1 ∧
      img.height = (thumbnail_size img.width img.height maxDim maxDim).2 then img
  else
    { width := (thumbnail_size img.width img.height maxDim maxDim).1
      height := (thumbnail_size img.width img.height maxDim maxDim).2
      data := resample img (thumbnail_size img.width img.height maxDim maxDim).1
        (thumbnail_size img.width img.height maxDim maxDim).2 }

/-- `downscale_if_needed(img, max_dim)` (server.py lines 68-78).  The body
is a `try`/`except` over: read the size; if the longer side exceeds
`max_dim`, rebind `img` to `img.copy()` and call `img.thumbnail(...)` on the
copy, then return `img`.  The `except` clause returns whatever `img` names
at that point: the original if `copy` raised, the copy if `thumbnail`
raised.  `copyOp` and `thumbOp` are the two fallible external calls. -/
def downscale_if_needed (copyOp : Image → Except String Image)
    (thumbOp : Image → Nat → Except String Image)
    (img : Image) (max_dim : Nat) : Image :=
  if max img.width img.height > max_dim then
    match copyOp img with
    | Except.error _ => img
    | Except.ok c =>
      match thumbOp c max_dim with
      | Except.error _ => c
      | Except.ok t => t
  else img

/-- A response body: PNG bytes (`send_file(buf, mimetype="image/png")`) or a
plain-text message. -/
inductive Body where
  | png (data : List Nat)
  | text (msg : String)
deriving Repr, DecidableEq

/-- An HTTP response: status code plus body. -/
structure Response where
  status : Nat
  body : Body
deriving Repr, DecidableEq

/-- The pipeline steps a request can actually perform, for stating that a
given step was never attempted. -/
inductive Step where
  | decodeStep
  | inferStep
  | encodeStep
deriving Repr, DecidableEq

/-- The external collaborators the handler calls: PIL decode
(`Image.open(...).convert("RGBA")`, parameterised by the process-wide
`LOAD_TRUNCATED_IMAGES` flag), `img.copy()`, `img.thumbnail(...)`, and PNG
encoding (`out_img.save(buf, format="PNG")`). -/
structure Externals where
  decode : Bool → List Nat → Except String Image
  copyImg : Image → Except String Image
  thumbnail : Image → Nat → Except String Image
  encodePNG : Image → Except String (List Nat)

/-- Response of the `@app.errorhandler(413)` handler (server.py lines 31-33). -/
def handle_request_entity_too_large : Response :=
  { status := 413, body := Body.text "File too large" }

/-- The 400 response for a missing `image` form field (server.py line 88). -/
def missingImageResponse : Response :=
  { status := 400, body := Body.text "Missing image file field" }

/-- The 503 response of the readiness gate (server.py line 92). -/
def notReadyResponse : Response :=
  { status := 503, body := Body.text "Model not ready, please retry in a few seconds" }

/-- The `remove_bg` view function (server.py lines 84-109), given the
current globals, the external collaborators and the optional `image` form
field bytes.  Returns the response together with the pipeline steps
performed.  Source order: missing-field check (400); readiness gate (503);
then inside `try`: decode, downscale, inference, PNG encode, 200 — any
exception in the `try` becomes `(str(e), 500, text/plain)`. -/
def remove_bg (st : ServerState) (ext : Externals)
    (files_image : Option (List Nat)) : Response × List Step :=
  match files_image with
  | none => (missingImageResponse, [])
  | some bytes =>
    match st.remove_fn, st.session with
    | some rf, some _ =>
      if st.ready_event then
        match ext.decode LOAD_TRUNCATED_IMAGES bytes with
        | Except.error e => ({ status := 500, body := Body.text e }, [Step.decodeStep])
        | Except.ok img =>
          match rf (downscale_if_needed ext.copyImg ext.thumbnail img 800) with
          | Except.error e =>
            ({ status := 500, body := Body.text e }, [Step.decodeStep, Step.inferStep])
          | Except.ok out =>
            match ext.encodePNG out with
            | Except.error e =>
              ({ status := 500, body := Body.text e },
               [Step.decodeStep, Step.inferStep, Step.encodeStep])
            | Except.ok png =>
              ({ status := 200, body := Body.png png },
               [Step.decodeStep, Step.inferStep, Step.encodeStep])
      else (notReadyResponse, [])
    | _, _ => (notReadyResponse, [])

/-- A request to `POST /remove-bg` as the framework sees it: declared body
size and the optional `image` file field. -/
structure Request where
  content_length : Nat
  files_image : Option (List Nat)

/-- Full request processing including the framework layer: werkzeug raises
`RequestEntityTooLarge` when the body exceeds `MAX_CONTENT_LENGTH`, which
Flask routes to the 413 error handler before any view code touches the
upload; otherwise the view runs. -/
def handle_request (st : ServerState) (ext : Externals) (req : Request) :
    Response × List Step :=
  if req.content_length > MAX_CONTENT_LENGTH then
    (handle_request_entity_too_large, [])
  else remove_bg st ext req.files_image

/-! Concrete instances used by witnesses and counterexamples. -/

/-- An inference function that succeeds, returning its input. -/
def idRemove : RemoveFn := fun i => Except.ok i

/-- An inference function that raises on every call (so its warm-up call
raises). -/
def badRemove : RemoveFn := fun _ => Except.error "warm-up failed"

/-- A small concrete test image. -/
def testImg : Image := { width := 4, height := 4, data := List.replicate 16 1 }

/-- Globals after a fully successful preload. -/
def readyState : ServerState :=
  { remove_fn := some idRemove, session := some 0, ready_event := true }

/-- External collaborators that all succeed. -/
def extOk : Externals :=
  { decode := fun _ _ => Except.ok testImg
    copyImg := fun i => Except.ok i
    thumbnail := fun i _ => Except.ok i
    encodePNG := fun i => Except.ok i.data }

/-- Globals after a preload whose construction succeeded but whose warm-up
call raised. -/
def stWarmFail : ServerState := preload_rembg (Except.ok badRemove) (Except.ok 0)

/-- Externals whose decode raises. -/
def extDecErr : Externals :=
  { extOk with decode := fun _ _ => Except.error "cannot identify image file" }

/-- Externals whose decode succeeds exactly when `LOAD_TRUNCATED_IMAGES`
style tolerance is on: a truncated but recognizable byte stream. -/
def extTrunc : Externals :=
  { extOk with decode := fun flag _ =>
      if flag then Except.ok testImg else Except.error "broken data stream" }

/-- A thumbnail call that raises. -/
def thumbFail : Image → Nat → Except String Image :=
  fun _ _ => Except.error "resize failed"

/-- An image larger than the 800-pixel bound. -/
def bigImg : Image := { width := 1600, height := 1200, data := List.replicate 4 7 }

/-- A trivial resampling function (pixel data is irrelevant to the
dimension claims). -/
def resampleTriv : Image → Nat → Nat → List Nat := fun _ _ _ => []

/-- A thumbnail call that behaves as PIL's `thumbnail`. -/
def thumbOpGood : Image → Nat → Except String Image :=
  fun i dd => Except.ok (pil_thumbnail resampleTriv i dd)

/-! Claim C1. -/

/-- C1 is false on the code: an execution of `_preload_rembg` in which model
construction (`new_session`) raises terminates with the readiness signal
still not set — the outer `except` swallows the error without setting the
event, so waiters never observe a terminal state. -/
theorem c1_counterexample :
    (preload_rembg (Except.ok idRemove)
      (Except.error "session construction failed")).ready_event = false := rfl

/-- C1 (amended): the signal starts not-signaled, and an execution of
`_preload_rembg` ends signaled exactly when both the import and the session
construction succeed — regardless of the warm-up call's outcome, which the
state does not depend on; if either construction step raises, the routine
exits without ever signaling. -/
theorem c1_signal_amended :
    initialState.ready_event = false ∧
    ∀ (ir : Except String RemoveFn) (sr : Except String Nat),
      (preload_rembg ir sr).ready_event = (exceptIsOk ir && exceptIsOk sr) := by
  refine ⟨rfl, ?_⟩
  intro ir sr
  cases ir <;> cases sr <;> rfl

/-! Claim C2. -/

/-- C2 is false on the code: with an inference function whose warm-up call
raises, the preload still sets the event (in the inner `finally`) after
populating `remove_fn` and `session`, so the readiness check returns true
and a later request proceeds past the gate to inference (here failing 500,
not 503). -/
theorem c2_counterexample :
    badRemove blank_img = Except.error "warm-up failed" ∧
    isReady stWarmFail = true ∧
    (remove_bg stWarmFail extOk (some [0])).1.status = 500 := ⟨rfl, rfl, rfl⟩

/-- C2 (amended): the readiness check returns true exactly when the import
and session construction succeeded, irrespective of the warm-up outcome;
and whenever either construction step failed, every later `/remove-bg`
request with an image field fails 503 with no pipeline step attempted. -/
theorem c2_readiness_amended (ir : Except String RemoveFn) (sr : Except String Nat) :
    isReady (preload_rembg ir sr) = (exceptIsOk ir && exceptIsOk sr) ∧
    ((exceptIsOk ir && exceptIsOk sr) = false →
      ∀ (ext : Externals) (bytes : List Nat),
        remove_bg (preload_rembg ir sr) ext (some bytes) = (notReadyResponse, [])) := by
  cases ir with
  | error e => cases sr <;> exact ⟨rfl, fun _ ext bytes => rfl⟩
  | ok rf =>
    cases sr with
    | error e => exact ⟨rfl, fun _ ext bytes => rfl⟩
    | ok s => exact ⟨rfl, fun h => by simp [exceptIsOk] at h⟩

/-- Witness for `c2_readiness_amended` at a failed import. -/
theorem c2_readiness_amended_witness :
    isReady (preload_rembg (Except.error "No module named rembg" : Except String RemoveFn)
      (Except.error "skipped" : Except String Nat)) = false ∧
    remove_bg (preload_rembg (Except.error "No module named rembg" : Except String RemoveFn)
      (Except.error "skipped" : Except String Nat)) extOk (some [0]) = (notReadyResponse, []) := by
  have h := c2_readiness_amended (Except.error "No module named rembg")
    (Except.error "skipped")
  exact ⟨h.1, h.2 rfl extOk [0]⟩

/-! Claim C3. -/

/-- C3 is false as stated: before initialization (readiness not signaled), a
request whose payload lacks the `image` field gets 400, not 503, because
the missing-field check precedes the readiness gate in the handler. -/
theorem c3_counterexample :
    initialState.ready_event = false ∧
    (remove_bg initialState extOk none).1.status = 400 := ⟨rfl, rfl⟩

/-- C3 (amended): before initialization completes, every request that
carries an image field gets exactly the 503 response with no pipeline step
performed, and no request of any payload reaches decoding or inference. -/
theorem c3_gate_amended (st : ServerState) (ext : Externals)
    (h : st.ready_event = false) :
    (∀ bytes : List Nat, remove_bg st ext (some bytes) = (notReadyResponse, [])) ∧
    (∀ o : Option (List Nat), (remove_bg st ext o).2 = []) := by
  obtain ⟨rfOpt, sOpt, ev⟩ := st
  change ev = false at h
  subst h
  constructor
  · intro bytes
    cases rfOpt <;> cases sOpt <;> rfl
  · intro o
    cases o with
    | none => rfl
    | some bytes => cases rfOpt <;> cases sOpt <;> rfl

/-- Witness for `c3_gate_amended` at the initial state. -/
theorem c3_gate_amended_witness :
    remove_bg initialState extOk (some [0]) = (notReadyResponse, []) ∧
    (remove_bg initialState extOk none).2 = [] := by
  have h := c3_gate_amended initialState extOk rfl
  exact ⟨h.1 [0], h.2 none⟩

/-! Claim C4. -/

/-- C4: for an image whose longer dimension is within `max_dim`,
`downscale_if_needed` returns the input image itself unchanged (no copy is
made), for arbitrary behaviour of the copy and thumbnail collaborators. -/
theorem c4_downscale_identity (copyOp : Image → Except String Image)
    (thumbOp : Image → Nat → Except String Image) (img : Image) (max_dim : Nat)
    (h : max img.width img.height ≤ max_dim) :
    downscale_if_needed copyOp thumbOp img max_dim = img := by
  unfold downscale_if_needed
  rw [if_neg (by omega)]

/-- Witness for `c4_downscale_identity` on a 4×4 image with bound 800. -/
theorem c4_downscale_identity_witness :
    max testImg.width testImg.height ≤ 800 ∧
    downscale_if_needed extOk.copyImg extOk.thumbnail testImg 800 = testImg :=
  ⟨by decide, c4_downscale_identity extOk.copyImg extOk.thumbnail testImg 800 (by decide)⟩

/-! Claim C5. -/

/-- Whatever the key picks, `round_aspect` lands within one of its input. -/
theorem round_aspect_sub_lt (q : ℚ) (k : ℕ → ℚ) (hq : 0 < q) :
    |((round_aspect q k : ℕ) : ℚ) - q| < 1 := by
  have hf0 : (0 : ℤ) ≤ ⌊q⌋ := Int.floor_nonneg.mpr hq.le
  have hc0 : (0 : ℤ) < ⌈q⌉ := Int.ceil_pos.mpr hq
  have hfval : ((Int.toNat ⌊q⌋ : ℕ) : ℚ) = ((⌊q⌋ : ℤ) : ℚ) := by
    exact_mod_cast Int.toNat_of_nonneg hf0
  have hcval : ((Int.toNat ⌈q⌉ : ℕ) : ℚ) = ((⌈q⌉ : ℤ) : ℚ) := by
    exact_mod_cast Int.toNat_of_nonneg hc0.le
  have h1 : ((⌊q⌋ : ℤ) : ℚ) ≤ q := Int.floor_le q
  have h2 : q - 1 < ((⌊q⌋ : ℤ) : ℚ) := Int.sub_one_lt_floor q
  have h3 : q ≤ ((⌈q⌉ : ℤ) : ℚ) := Int.le_ceil q
  have h4 : ((⌈q⌉ : ℤ) : ℚ) < q + 1 := Int.ceil_lt_add_one q
  unfold round_aspect
  rw [abs_lt]
  split
  · rcases Nat.eq_zero_or_pos (Int.toNat ⌊q⌋) with h0 | hpos
    · rw [h0]
      have hfq0 : ((⌊q⌋ : ℤ) : ℚ) = 0 := by
        rw [← hfval, h0]
        norm_num
      have hq1 : q < 1 := by linarith
      norm_num
      constructor <;> linarith
    · rw [Nat.max_eq_left hpos, hfval]
      constructor <;> linarith
  · have hpos : 0 < Int.toNat ⌈q⌉ := by omega
    rw [Nat.max_eq_left hpos, hcval]
    constructor <;> linarith

/-- `round_aspect` never exceeds an integer bound at least 1 that bounds
its input. -/
theorem round_aspect_le (q : ℚ) (k : ℕ → ℚ) (B : ℕ) (hB : 1 ≤ B)
    (hqB : q ≤ (B : ℚ)) : round_aspect q k ≤ B := by
  have hcB : ⌈q⌉ ≤ (B : ℤ) := by
    rw [Int.ceil_le]
    exact_mod_cast hqB
  have hfB : ⌊q⌋ ≤ (B : ℤ) := le_trans (Int.floor_le_ceil q) hcB
  unfold round_aspect
  split <;> omega

/-- The size computed by `thumbnail((d, d))` on a `w × h` image that does
not fit: the longer side becomes exactly `d`, and the shorter side is
within one pixel of exact aspect-preserving scaling. -/
theorem thumbnail_size_spec (w h d : ℕ) (hw : 0 < w) (hh : 0 < h) (hd : 0 < d)
    (hbig : d < max w h) :
    max (thumbnail_size w h d d).1 (thumbnail_size w h d d).2 = d ∧
    |((min (thumbnail_size w h d d).1 (thumbnail_size w h d d).2 : ℕ) : ℚ) -
      (d : ℚ) * ((min w h : ℕ) : ℚ) / ((max w h : ℕ) : ℚ)| < 1 := by
  have hw' : (0 : ℚ) < (w : ℚ) := Nat.cast_pos.mpr hw
  have hh' : (0 : ℚ) < (h : ℚ) := Nat.cast_pos.mpr hh
  have hd' : (0 : ℚ) < (d : ℚ) := Nat.cast_pos.mpr hd
  have hN : ¬ (d ≥ w ∧ d ≥ h) := by omega
  by_cases hwh : w ≤ h
  · have haspect_le : (w : ℚ) / (h : ℚ) ≤ 1 := by
      rw [div_le_one hh']
      exact_mod_cast hwh
    have hcond : (d : ℚ) / (d : ℚ) ≥ (w : ℚ) / (h : ℚ) := by
      rw [div_self hd'.ne']
      exact haspect_le
    have hts : thumbnail_size w h d d =
        (round_aspect ((d : ℚ) * ((w : ℚ) / (h : ℚ)))
          (fun n => |(w : ℚ) / (h : ℚ) - (n : ℚ) / (d : ℚ)|), d) := by
      simp only [thumbnail_size]
      rw [if_neg hN, if_pos hcond]
    have hq0 : 0 < (d : ℚ) * ((w : ℚ) / (h : ℚ)) :=
      mul_pos hd' (div_pos hw' hh')
    have hqle : (d : ℚ) * ((w : ℚ) / (h : ℚ)) ≤ (d : ℚ) :=
      mul_le_of_le_one_right hd'.le haspect_le
    have hle : round_aspect ((d : ℚ) * ((w : ℚ) / (h : ℚ)))
        (fun n => |(w : ℚ) / (h : ℚ) - (n : ℚ) / (d : ℚ)|) ≤ d :=
      round_aspect_le _ _ d hd hqle
    rw [hts, Nat.max_eq_right hwh, Nat.min_eq_left hwh]
    constructor
    · exact Nat.max_eq_right hle
    · rw [Nat.min_eq_left hle, mul_div_assoc]
      exact round_aspect_sub_lt _ _ hq0
  · have hhw : h < w := lt_of_not_le hwh
    have hcond : ¬ ((d : ℚ) / (d : ℚ) ≥ (w : ℚ) / (h : ℚ)) := by
      rw [div_self hd'.ne', ge_iff_le, not_le]
      exact (one_lt_div hh').mpr (by exact_mod_cast hhw)
    have hts : thumbnail_size w h d d =
        (d, round_aspect ((d : ℚ) / ((w : ℚ) / (h : ℚ)))
          (fun n => if n = 0 then 0
            else |(w : ℚ) / (h : ℚ) - (d : ℚ) / (n : ℚ)|)) := by
      simp only [thumbnail_size]
      rw [if_neg hN, if_neg hcond]
    have hqeq : (d : ℚ) / ((w : ℚ) / (h : ℚ)) = (d : ℚ) * (h : ℚ) / (w : ℚ) := by
      field_simp
    have hq0 : 0 < (d : ℚ) / ((w : ℚ) / (h : ℚ)) :=
      div_pos hd' (div_pos hw' hh')
    have hqle : (d : ℚ) / ((w : ℚ) / (h : ℚ)) ≤ (d : ℚ) := by
      rw [hqeq, div_le_iff₀ hw']
      have hcast : (h : ℚ) ≤ (w : ℚ) := by exact_mod_cast hhw.le
      nlinarith
    have hle : round_aspect ((d : ℚ) / ((w : ℚ) / (h : ℚ)))
        (fun n => if n = 0 then 0
          else |(w : ℚ) / (h : ℚ) - (d : ℚ) / (n : ℚ)|) ≤ d :=
      round_aspect_le _ _ d hd hqle
    rw [hts, Nat.max_eq_left hhw.le, Nat.min_eq_right hhw.le]
    constructor
    · exact Nat.max_eq_left hle
    · rw [Nat.min_eq_right hle, ← hqeq]
      exact round_aspect_sub_lt _ _ hq0

/-- `pil_thumbnail` on an image that exceeds the box in some direction:
longer output side is exactly the bound; shorter side within one pixel of
exact scaling. -/
theorem pil_thumbnail_spec (resample : Image → Nat → Nat → List Nat)
    (img : Image) (d : Nat) (hw : 0 < img.width) (hh : 0 < img.height)
    (hd : 0 < d) (hbig : d < max img.width img.height) :
    max (pil_thumbnail resample img d).width (pil_thumbnail resample img d).height = d ∧
    |((min (pil_thumbnail resample img d).width
        (pil_thumbnail resample img d).height : ℕ) : ℚ) -
      (d : ℚ) * ((min img.width img.height : ℕ) : ℚ) /
        ((max img.width img.height : ℕ) : ℚ)| < 1 := by
  obtain ⟨hmax, hmin⟩ := thumbnail_size_spec img.width img.height d hw hh hd hbig
  have hne : ¬ (img.width = (thumbnail_size img.width img.height d d).1 ∧
      img.height = (thumbnail_size img.width img.height d d).2) := by
    rintro ⟨ha, hb⟩
    rw [← ha, ← hb] at hmax
    omega
  unfold pil_thumbnail
  rw [if_neg hne]
  exact ⟨hmax, hmin⟩

/-- C5: for an image whose longer dimension exceeds `max_dim`,
`downscale_if_needed` (with a faithful copy and a thumbnail behaving as
PIL's) produces an image whose longer dimension is exactly `max_dim` and
whose shorter dimension is within one pixel of exact aspect-preserving
scaling of the shorter input dimension. -/
theorem c5_downscale_bounds (copyOp : Image → Except String Image)
    (thumbOp : Image → Nat → Except String Image)
    (resample : Image → Nat → Nat → List Nat) (img : Image) (max_dim : Nat)
    (hw : 0 < img.width) (hh : 0 < img.height) (hd : 0 < max_dim)
    (hbig : max_dim < max img.width img.height)
    (hcopy : copyOp img = Except.ok img)
    (hthumb : thumbOp img max_dim = Except.ok (pil_thumbnail resample img max_dim)) :
    max (downscale_if_needed copyOp thumbOp img max_dim).width
      (downscale_if_needed copyOp thumbOp img max_dim).height = max_dim ∧
    |((min (downscale_if_needed copyOp thumbOp img max_dim).width
        (downscale_if_needed copyOp thumbOp img max_dim).height : ℕ) : ℚ) -
      (max_dim : ℚ) * ((min img.width img.height : ℕ) : ℚ) /
        ((max img.width img.height : ℕ) : ℚ)| < 1 := by
  have hds : downscale_if_needed copyOp thumbOp img max_dim =
      pil_thumbnail resample img max_dim := by
    unfold downscale_if_needed
    rw [if_pos (by omega)]
    simp only [hcopy, hthumb]
  rw [hds]
  exact pil_thumbnail_spec resample img max_dim hw hh hd hbig

/-- Witness for `c5_downscale_bounds` on a 1600 × 1200 image with bound
800 (the result is 800 × 600). -/
theorem c5_downscale_bounds_witness :
    max (downscale_if_needed extOk.copyImg thumbOpGood bigImg 800).width
      (downscale_if_needed extOk.copyImg thumbOpGood bigImg 800).height = 800 ∧
    |((min (downscale_if_needed extOk.copyImg thumbOpGood bigImg 800).width
        (downscale_if_needed extOk.copyImg thumbOpGood bigImg 800).height : ℕ) : ℚ) -
      ((800 : ℕ) : ℚ) * ((min bigImg.width bigImg.height : ℕ) : ℚ) /
        ((max bigImg.width bigImg.height : ℕ) : ℚ)| < 1 :=
  c5_downscale_bounds extOk.copyImg thumbOpGood resampleTriv bigImg 800
    (by decide) (by decide) (by decide) (by decide) rfl rfl

/-! Claim C6. -/

/-- C6: if an internal step of `downscale_if_needed` raises (the copy, or
the thumbnail call after a faithful copy), the function returns an image
equal to the original input rather than propagating the error. -/
theorem c6_downscale_fallback (copyOp : Image → Except String Image)
    (thumbOp : Image → Nat → Except String Image) (img : Image) (max_dim : Nat)
    (hcopy : ∀ c, copyOp img = Except.ok c → c = img)
    (herr : (∃ e, copyOp img = Except.error e) ∨
            (∃ c e, copyOp img = Except.ok c ∧ thumbOp c max_dim = Except.error e)) :
    downscale_if_needed copyOp thumbOp img max_dim = img := by
  unfold downscale_if_needed
  by_cases hbig : max img.width img.height > max_dim
  · rw [if_pos hbig]
    rcases herr with ⟨e, he⟩ | ⟨c, e, hc, ht⟩
    · rw [he]
    · simp only [hc, ht]
      exact hcopy c hc
  · rw [if_neg hbig]

/-- Witness for `c6_downscale_fallback` with a failing thumbnail call on an
oversized image. -/
theorem c6_downscale_fallback_witness :
    downscale_if_needed extOk.copyImg thumbFail bigImg 800 = bigImg :=
  c6_downscale_fallback extOk.copyImg thumbFail bigImg 800
    (fun c hc => (Except.ok.inj hc).symm)
    (Or.inr ⟨bigImg, "resize failed", rfl, rfl⟩)

/-! Claim C7. -/

/-- C7: a request whose byte size exceeds `MAX_CONTENT_LENGTH` (10 MiB) is
answered by the 413 error handler with a plain-text body, and no pipeline
step — in particular no decode — is performed. -/
theorem c7_payload_too_large (st : ServerState) (ext : Externals) (req : Request)
    (h : req.content_length > MAX_CONTENT_LENGTH) :
    handle_request st ext req =
      ({ status := 413, body := Body.text "File too large" }, []) := by
  unfold handle_request
  rw [if_pos h]
  rfl

/-- Witness for `c7_payload_too_large` one byte over the limit. -/
theorem c7_payload_too_large_witness :
    handle_request initialState extOk
      { content_length := 10485761, files_image := some [0] } =
      ({ status := 413, body := Body.text "File too large" }, []) :=
  c7_payload_too_large initialState extOk
    { content_length := 10485761, files_image := some [0] } (by decide)

/-! Claim C8. -/

/-- C8: past the readiness gate, whichever of decoding, inference or
encoding raises first, the response is 500 with the exception text as a
plain-text body (never image bytes), and the steps after the failing one
are not performed. -/
theorem c8_pipeline_errors_500 (st : ServerState) (rf : RemoveFn) (s : Nat)
    (ext : Externals) (bytes : List Nat)
    (hrf : st.remove_fn = some rf) (hs : st.session = some s)
    (hev : st.ready_event = true) :
    (∀ e, ext.decode LOAD_TRUNCATED_IMAGES bytes = Except.error e →
      remove_bg st ext (some bytes) =
        ({ status := 500, body := Body.text e }, [Step.decodeStep])) ∧
    (∀ img e, ext.decode LOAD_TRUNCATED_IMAGES bytes = Except.ok img →
      rf (downscale_if_needed ext.copyImg ext.thumbnail img 800) = Except.error e →
      remove_bg st ext (some bytes) =
        ({ status := 500, body := Body.text e }, [Step.decodeStep, Step.inferStep])) ∧
    (∀ img out e, ext.decode LOAD_TRUNCATED_IMAGES bytes = Except.ok img →
      rf (downscale_if_needed ext.copyImg ext.thumbnail img 800) = Except.ok out →
      ext.encodePNG out = Except.error e →
      remove_bg st ext (some bytes) =
        ({ status := 500, body := Body.text e },
         [Step.decodeStep, Step.inferStep, Step.encodeStep])) := by
  obtain ⟨rfOpt, sOpt, ev⟩ := st
  change rfOpt = some rf at hrf
  change sOpt = some s at hs
  change ev = true at hev
  subst hrf
  subst hs
  subst hev
  refine ⟨?_, ?_, ?_⟩
  · intro e hdec
    simp [remove_bg, hdec]
  · intro img e hdec hinf
    simp [remove_bg, hdec, hinf]
  · intro img out e hdec hinf henc
    simp [remove_bg, hdec, hinf, henc]

/-- Witness for `c8_pipeline_errors_500` with a failing decode. -/
theorem c8_pipeline_errors_500_witness :
    remove_bg readyState extDecErr (some [0]) =
      ({ status := 500, body := Body.text "cannot identify image file" },
       [Step.decodeStep]) :=
  (c8_pipeline_errors_500 readyState idRemove 0 extDecErr [0] rfl rfl rfl).1
    "cannot identify image file" rfl

/-! Claim C9. -/

/-- C9: whenever the handler reaches inference, the readiness event is set
and both `remove_fn` and `session` are populated — the gate is
all-or-nothing over any globals state, including mid-initialization ones. -/
theorem c9_gate_all_or_nothing (st : ServerState) (ext : Externals)
    (o : Option (List Nat))
    (h : Step.inferStep ∈ (remove_bg st ext o).2) :
    st.ready_event = true ∧ st.remove_fn.isSome = true ∧
      st.session.isSome = true := by
  obtain ⟨rfOpt, sOpt, ev⟩ := st
  cases o with
  | none => simp [remove_bg] at h
  | some bytes =>
    cases rfOpt <;> cases sOpt <;> cases ev <;>
      first
        | exact ⟨rfl, rfl, rfl⟩
        | simp [remove_bg] at h

/-- Witness for `c9_gate_all_or_nothing` on a fully ready state. -/
theorem c9_gate_all_or_nothing_witness :
    readyState.ready_event = true ∧ readyState.remove_fn.isSome = true ∧
      readyState.session.isSome = true :=
  c9_gate_all_or_nothing readyState extOk (some [0]) (by decide)

/-! Claim C10. -/

/-- C10: on bytes that strict decoding rejects but tolerant decoding
accepts (a truncated, recognizable image), the handler — which passes the
process-wide `LOAD_TRUNCATED_IMAGES = true` — decodes successfully and,
with inference and encoding succeeding, answers 200 with the PNG bytes. -/
theorem c10_truncated_accepted (st : ServerState) (rf : RemoveFn) (s : Nat)
    (ext : Externals) (bytes : List Nat) (err : String) (img out : Image)
    (png : List Nat)
    (hrf : st.remove_fn = some rf) (hs : st.session = some s)
    (hev : st.ready_event = true)
    (hstrict : ext.decode false bytes = Except.error err)
    (hdec : ext.decode LOAD_TRUNCATED_IMAGES bytes = Except.ok img)
    (hinf : rf (downscale_if_needed ext.copyImg ext.thumbnail img 800) = Except.ok out)
    (henc : ext.encodePNG out = Except.ok png) :
    remove_bg st ext (some bytes) =
      ({ status := 200, body := Body.png png },
       [Step.decodeStep, Step.inferStep, Step.encodeStep]) := by
  obtain ⟨rfOpt, sOpt, ev⟩ := st
  change rfOpt = some rf at hrf
  change sOpt = some s at hs
  change ev = true at hev
  subst hrf
  subst hs
  subst hev
  simp [remove_bg, hdec, hinf, henc]

/-- Witness for `c10_truncated_accepted` on a truncated stream. -/
theorem c10_truncated_accepted_witness :
    remove_bg readyState extTrunc (some [7]) =
      ({ status := 200, body := Body.png testImg.data },
       [Step.decodeStep, Step.inferStep, Step.encodeStep]) :=
  c10_truncated_accepted readyState idRemove 0 extTrunc [7] "broken data stream"
    testImg testImg testImg.data rfl rfl rfl rfl rfl rfl rfl

end RemoveBgService
